import Mathlib

/-!
Verification of the urban-infrastructure degradation simulation engine.

The numeric functions of `src/lib/simulation/engine.ts` are embedded over `ℚ`
(the source uses JS numbers; all constants in the source are decimal literals,
so the arithmetic is modelled exactly by rationals).  `Math.round` is modelled
by `⌊x + 1/2⌋`, `Math.max`/`Math.min` by `max`/`min`, and the JS `||` default
idiom (`a || b`, which yields `b` when `a` is `0` or absent) by `jsOr`.

The WebSocket simulation service (in-memory run states, subscribe / progress /
complete / cancel handlers) is embedded as pure state-transition functions
returning the new state together with the list of emitted events.
-/

namespace UrbanInfra

/-- JS `Math.round`: round half toward positive infinity. -/
def jsRound (x : ℚ) : ℤ := ⌊x + 1/2⌋

/-- `Math.round (x * 100) / 100`, the two-decimal rounding used on results. -/
def round2 (x : ℚ) : ℚ := (jsRound (x * 100) : ℚ) / 100

/-- `Math.round (x * 1000) / 1000`, used on failure probabilities. -/
def round3 (x : ℚ) : ℚ := (jsRound (x * 1000) : ℚ) / 1000

/-- JS `a || b` for an optional numeric `a`: the default `b` is used when `a`
is absent or `0` (zero is falsy in JS). -/
def jsOr (a : Option ℚ) (b : ℚ) : ℚ :=
  match a with
  | none => b
  | some x => if x = 0 then b else x

/-- JS `String.prototype.toLowerCase`, modelled as a character-wise lowercase
map (the material names are ASCII). -/
def jsToLowerCase (s : String) : String := ⟨s.data.map Char.toLower⟩

/-- `MATERIAL_WEAR_RATES` table (annual degradation in percentage points). -/
def MATERIAL_WEAR_RATES (m : String) : Option ℚ :=
  if m = "asphalt" then some (5/2)
  else if m = "concrete" then some (9/5)
  else if m = "gravel" then some 4
  else if m = "brick" then some 2
  else if m = "steel" then some (3/2)
  else if m = "reinforced_concrete" then some (8/5)
  else if m = "prestressed_concrete" then some (7/5)
  else if m = "timber" then some (7/2)
  else if m = "pvc" then some (6/5)
  else if m = "ductile_iron" then some (9/5)
  else if m = "cast_iron" then some (11/5)
  else if m = "hdpe" then some 1
  else if m = "concrete_pipe" then some 2
  else if m = "clay" then some (5/2)
  else if m = "corrugated_metal" then some (14/5)
  else if m = "plastic" then some (3/2)
  else if m = "composite" then some (13/10)
  else if m = "other" then some 2
  else none

/-- `calculateTrafficAmplification` from engine.ts. -/
def calculateTrafficAmplification (trafficLoad : ℚ) : ℚ :=
  if trafficLoad ≤ 30 then 1 + trafficLoad / 30 * (3/10)
  else if trafficLoad ≤ 70 then 13/10 + (trafficLoad - 30) / 40 * (7/10)
  else 2 + (trafficLoad - 70) / 30 * 1

/-- `calculateEnvironmentalMultiplier` from engine.ts. -/
def calculateEnvironmentalMultiplier (humidityIndex salinityIndex temperatureIndex : ℚ) : ℚ :=
  let humidityFactor := 9/10 + humidityIndex * (6/10)
  let salinityFactor := 1 + salinityIndex * (8/10)
  let temperatureFactor := 9/10 + temperatureIndex * (5/10)
  min (humidityFactor * salinityFactor * temperatureFactor) (5/2)

/-- `calculateMaintenanceFactor` from engine.ts (`r` is `maintenanceRatio`). -/
def calculateMaintenanceFactor (maintenanceFreq monthsSinceLastMaintenance : ℚ) : ℚ :=
  let r := monthsSinceLastMaintenance / maintenanceFreq
  if r ≤ 1 then 7/10 + (1 - r) * (2/10)
  else if r ≤ 2 then 1 + (r - 1) * (3/10)
  else 13/10 + min ((r - 2) * (2/10)) (7/10)

/-- `calculateAgeFactor` from engine.ts (`r` is `ageRatio`). -/
def calculateAgeFactor (ageInYears expectedLifespan : ℚ) : ℚ :=
  let r := ageInYears / expectedLifespan
  if r < 1/2 then 1
  else if r < 3/4 then 1 + (r - 1/2) * (8/10)
  else if r < 1 then 12/10 + (r - 3/4) * (16/10)
  else 16/10 + min ((r - 1) * (8/10)) (4/10)

/-- `DegradationInput` from engine.ts. -/
structure DegradationInput where
  material : String
  ageInYears : ℚ
  expectedLifespan : ℚ
  trafficLoad : ℚ
  humidityIndex : ℚ
  salinityIndex : ℚ
  temperatureIndex : ℚ
  maintenanceFreq : ℚ
  monthsSinceLastMaintenance : ℚ
  currentCondition : ℚ
deriving DecidableEq

/-- The `factors` record inside `DegradationResult`. -/
structure DegradationFactors where
  baseRate : ℚ
  trafficAmp : ℚ
  environmentalMult : ℚ
  maintenanceFactor : ℚ
  ageFactor : ℚ
deriving DecidableEq

/-- `DegradationResult` from engine.ts. -/
structure DegradationResult where
  monthlyDegradation : ℚ
  newCondition : ℚ
  factors : DegradationFactors
deriving DecidableEq

/-- `calculateMonthlyDegradation` from engine.ts: no input validation is
performed; the factors are computed and multiplied for every input. -/
def calculateMonthlyDegradation (input : DegradationInput) : DegradationResult :=
  let baseAnnualRate := jsOr (MATERIAL_WEAR_RATES (jsToLowerCase input.material)) 2
  let baseMonthlyRate := baseAnnualRate / 12
  let trafficAmp := calculateTrafficAmplification input.trafficLoad
  let environmentalMult := calculateEnvironmentalMultiplier
    input.humidityIndex input.salinityIndex input.temperatureIndex
  let maintenanceFactor := calculateMaintenanceFactor
    input.maintenanceFreq input.monthsSinceLastMaintenance
  let ageFactor := calculateAgeFactor input.ageInYears input.expectedLifespan
  let monthlyDegradation :=
    baseMonthlyRate * trafficAmp * environmentalMult * maintenanceFactor * ageFactor
  let newCondition := max 0 (input.currentCondition - monthlyDegradation)
  { monthlyDegradation := monthlyDegradation
    newCondition := newCondition
    factors :=
      { baseRate := baseMonthlyRate
        trafficAmp := trafficAmp
        environmentalMult := environmentalMult
        maintenanceFactor := maintenanceFactor
        ageFactor := ageFactor } }

/-- The condition-score banding that initialises `probability` in
`calculateFailureProbability`. -/
def baseFailureProbability (conditionScore : ℚ) : ℚ :=
  if conditionScore ≥ 80 then 1/1000
  else if conditionScore ≥ 60 then 1/100 + (80 - conditionScore) * (2/1000)
  else if conditionScore ≥ 40 then 5/100 + (60 - conditionScore) * (5/1000)
  else if conditionScore ≥ 20 then 15/100 + (40 - conditionScore) * (15/1000)
  else 45/100 + (20 - conditionScore) * (25/1000)

/-- The `degradationRate > 1` adjustment in `calculateFailureProbability`. -/
def rateAdjusted (probability degradationRate : ℚ) : ℚ :=
  if degradationRate > 1 then probability * (1 + (degradationRate - 1) * (1/2))
  else probability

/-- The maintenance-status adjustment in `calculateFailureProbability`.
Note the source checks `monthsSinceLastMaintenance > 24` BEFORE `> 36`, so
the `* 1.6` branch is unreachable; the embedding preserves that order. -/
def maintenanceAdjusted (probability monthsSinceLastMaintenance : ℚ) : ℚ :=
  if monthsSinceLastMaintenance > 24 then probability * (13/10)
  else if monthsSinceLastMaintenance > 36 then probability * (16/10)
  else probability

/-- `calculateFailureProbability` from engine.ts: the banded base probability,
the two sequential adjustments, then the `Math.min` clamp at `0.99`. -/
def calculateFailureProbability
    (conditionScore degradationRate monthsSinceLastMaintenance : ℚ) : ℚ :=
  min (maintenanceAdjusted (rateAdjusted (baseFailureProbability conditionScore)
    degradationRate) monthsSinceLastMaintenance) (99/100)

/-- Risk levels returned by `determineRiskLevel`. -/
inductive RiskLevel where
  | low
  | medium
  | high
  | critical
deriving DecidableEq

/-- `determineRiskLevel` from engine.ts. -/
def determineRiskLevel (conditionScore failureProbability : ℚ) : RiskLevel :=
  if conditionScore < 20 ∨ failureProbability > 2/5 then .critical
  else if conditionScore < 40 ∨ failureProbability > 1/5 then .high
  else if conditionScore < 60 ∨ failureProbability > 1/10 then .medium
  else .low

/-- Numeric severity of a risk level (`low` least severe). -/
def severity : RiskLevel → ℕ
  | .low => 0
  | .medium => 1
  | .high => 2
  | .critical => 3

/-- The more severe of two risk levels. -/
def moreSevere (a b : RiskLevel) : RiskLevel :=
  if severity b ≤ severity a then a else b

/-- The risk band determined by the condition score alone (from the spec's
band description: `< 20` critical, `< 40` high, `< 60` medium, else low). -/
def riskFromCondition (conditionScore : ℚ) : RiskLevel :=
  if conditionScore < 20 then .critical
  else if conditionScore < 40 then .high
  else if conditionScore < 60 then .medium
  else .low

/-- The risk band determined by the failure probability alone (from the
spec's band description: `> 0.4` critical, `> 0.2` high, `> 0.1` medium,
else low). -/
def riskFromProbability (failureProbability : ℚ) : RiskLevel :=
  if failureProbability > 2/5 then .critical
  else if failureProbability > 1/5 then .high
  else if failureProbability > 1/10 then .medium
  else .low

/-- The asset fields consumed by `runSimulation` (loaded from the database in
the source; here supplied directly). -/
structure Asset where
  material : String
  expectedLifespan : ℚ
  trafficLoad : ℚ
  humidityIndex : ℚ
  salinityIndex : ℚ
  temperatureIndex : ℚ
  maintenanceFreq : ℚ
  replacementCost : ℚ
  currentCondition : ℚ
  degradationScore : ℚ
deriving DecidableEq

/-- `scenarioType` values of `SimulationConfig`. -/
inductive ScenarioType where
  | standard
  | optimistic
  | pessimistic
  | custom
deriving DecidableEq

/-- `customParams` of `SimulationConfig`; every field is optional. -/
structure CustomParams where
  trafficMultiplier : Option ℚ := none
  maintenanceImprovement : Option ℚ := none
  environmentalSeverity : Option ℚ := none
deriving DecidableEq

/-- `SimulationConfig` from engine.ts (minus the `assetId` used only for the
database lookup). -/
structure SimulationConfig where
  yearsToSimulate : ℕ
  scenarioType : ScenarioType
  customParams : Option CustomParams := none
deriving DecidableEq

/-- `SimulationMonthResult` from engine.ts. -/
structure SimulationMonthResult where
  month : ℕ
  year : ℕ
  conditionScore : ℚ
  degradationScore : ℚ
  failureProbability : ℚ
  riskLevel : RiskLevel
  maintenanceCost : ℚ
deriving DecidableEq

/-- The scenario multiplier resolved by `runSimulation`'s `switch`:
the `custom` case is `config.customParams?.environmentalSeverity || 1.0`. -/
def scenarioMultiplier (config : SimulationConfig) : ℚ :=
  match config.scenarioType with
  | .standard => 1
  | .optimistic => 8/10
  | .pessimistic => 13/10
  | .custom => jsOr (config.customParams.bind CustomParams.environmentalSeverity) 1

/-- The traffic load passed to `calculateMonthlyDegradation` by
`runSimulation`: `asset.trafficLoad * (config.customParams?.trafficMultiplier || 1)`. -/
def effectiveTrafficLoad (trafficLoad : ℚ) (config : SimulationConfig) : ℚ :=
  trafficLoad * jsOr (config.customParams.bind CustomParams.trafficMultiplier) 1

/-- The inputs of `runSimulation` that the source derives from the database
record and the clock (initial age in years, months since last maintenance). -/
structure SimEnv where
  asset : Asset
  initialAgeInYears : ℚ
  monthsSinceLastMaintenance : ℚ
  config : SimulationConfig
deriving DecidableEq

/-- One iteration's `SimulationMonthResult` together with the updated
condition and cumulative degradation (the body of `runSimulation`'s loop). -/
def simStep (env : SimEnv) (month : ℕ) (currentCondition cumulativeDegradation : ℚ) :
    SimulationMonthResult × ℚ × ℚ :=
  let year := (month + 11) / 12
  let ageInYears := env.initialAgeInYears + (month : ℚ) / 12
  let degradationInput : DegradationInput :=
    { material := env.asset.material
      ageInYears := ageInYears
      expectedLifespan := env.asset.expectedLifespan
      trafficLoad := effectiveTrafficLoad env.asset.trafficLoad env.config
      humidityIndex := env.asset.humidityIndex
      salinityIndex := env.asset.salinityIndex
      temperatureIndex := env.asset.temperatureIndex
      maintenanceFreq := env.asset.maintenanceFreq
      monthsSinceLastMaintenance := env.monthsSinceLastMaintenance + (month : ℚ)
      currentCondition := currentCondition }
  let degradation := calculateMonthlyDegradation degradationInput
  let monthlyDegr := degradation.monthlyDegradation * scenarioMultiplier env.config
  let newCondition := max 0 (currentCondition - monthlyDegr)
  let newCumulative := cumulativeDegradation + monthlyDegr
  let failureProb := calculateFailureProbability newCondition (monthlyDegr * 12)
    (env.monthsSinceLastMaintenance + (month : ℚ))
  let riskLevel := determineRiskLevel newCondition failureProb
  let maintenanceCost :=
    if newCondition < 40 then env.asset.replacementCost * (3/10)
    else if newCondition < 60 then env.asset.replacementCost * (1/10)
    else if newCondition < 80 then env.asset.replacementCost * (2/100)
    else 0
  ({ month := month
     year := year
     conditionScore := round2 newCondition
     degradationScore := round2 newCumulative
     failureProbability := round3 failureProb
     riskLevel := riskLevel
     maintenanceCost := round2 maintenanceCost },
   newCondition, newCumulative)

/-- The `for` loop of `runSimulation`: appends one result per month and stops
early (after recording the month) when the condition has dropped to 0. -/
def simLoop (env : SimEnv) (currentCondition cumulativeDegradation : ℚ)
    (month remaining : ℕ) : List SimulationMonthResult :=
  match remaining with
  | 0 => []
  | remaining' + 1 =>
    if (simStep env month currentCondition cumulativeDegradation).2.1 ≤ 0 then
      [(simStep env month currentCondition cumulativeDegradation).1]
    else
      (simStep env month currentCondition cumulativeDegradation).1 ::
        simLoop env (simStep env month currentCondition cumulativeDegradation).2.1
          (simStep env month currentCondition cumulativeDegradation).2.2
          (month + 1) remaining'

/-- `runSimulation` from engine.ts (the database fetch replaced by the
`SimEnv` inputs). -/
def runSimulation (env : SimEnv) : List SimulationMonthResult :=
  simLoop env env.asset.currentCondition env.asset.degradationScore 1
    (env.config.yearsToSimulate * 12)

/-! ### WebSocket simulation service (in-memory run states and handlers) -/

/-- One entry of the service's `simulationStates` map.  The `results` array is
created empty and never appended to by the service's own handlers; the element
payloads are opaque. -/
structure WsRunState where
  status : String
  progress : ℤ
  results : List Unit := []
  error : Option String := none
deriving DecidableEq

/-- Events the service emits to simulation-room, tenant-room or single-socket
targets. -/
inductive WsEvent where
  | stateSnapshot (simulationId : String) (state : WsRunState)
  | started (simulationId : String)
  | progressUpdate (simulationId : String) (month : ℕ) (progress : ℤ)
  | completed (simulationId : String)
  | cancelled (simulationId : String) (reason : String)
  | tenantNotice (kind : String) (simulationId : String) (message : String)
deriving DecidableEq

/-- Whether an event is a `simulation-progress` event. -/
def WsEvent.isProgress : WsEvent → Bool
  | .progressUpdate _ _ _ => true
  | _ => false

/-- The `subscribe-simulation` handler's emissions to the joining socket:
the current state snapshot when one exists, nothing otherwise.  (The room
join itself carries no payload.) -/
def subscribeSimulation (simulationId : String) (state : Option WsRunState) :
    List WsEvent :=
  match state with
  | some s => [.stateSnapshot simulationId s]
  | none => []

/-- The `cancel-simulation` handler: when the stored state exists and its
status is `"running"`, it sets `status := "cancelled"` and an error message
and emits a `simulation-cancelled` event; otherwise it does nothing. -/
def cancelSimulation (simulationId : String) (state : Option WsRunState) :
    Option WsRunState × List WsEvent :=
  match state with
  | some s =>
    if s.status = "running" then
      (some { s with status := "cancelled", error := some "Simulation cancelled by user" },
       [.cancelled simulationId "User cancelled"])
    else (some s, [])
  | none => (none, [])

/-- One iteration of the `start-simulation` loop body: when the stored state
exists and is still `"running"`, update its progress to
`Math.round (month / totalMonths * 100)` and emit a progress event, continuing
the loop; otherwise leave the state untouched, emit nothing, and break. -/
def wsLoopIteration (simulationId : String) (month totalMonths : ℕ)
    (state : Option WsRunState) : Option WsRunState × List WsEvent × Bool :=
  match state with
  | some s =>
    if s.status = "running" then
      let progress := jsRound ((month : ℚ) / (totalMonths : ℚ) * 100)
      (some { s with progress := progress },
       [.progressUpdate simulationId month progress], true)
    else (some s, [], false)
  | none => (none, [], false)

/-- The completion block after the `start-simulation` loop: when the stored
state exists and is still `"running"`, set `status := "completed"` and
`progress := 100` and emit the completion event plus the tenant notice;
otherwise do nothing. -/
def wsMarkCompleted (simulationId _tenantId : String) (state : Option WsRunState) :
    Option WsRunState × List WsEvent :=
  match state with
  | some s =>
    if s.status = "running" then
      (some { s with status := "completed", progress := 100 },
       [.completed simulationId,
        .tenantNotice "completed" simulationId "Simulation completed successfully"])
    else (some s, [])
  | none => (none, [])

/-! ### Concrete inputs used by the theorems below -/

/-- The spec's worked example: asphalt, traffic 50, indices 0.6 / 0.7 / 0.7,
maintenance interval 12 with 24 months elapsed, age 5 of lifespan 20 (age
ratio 0.25, well below 0.5), current condition 90. -/
def workedExampleInput : DegradationInput :=
  { material := "asphalt"
    ageInYears := 5
    expectedLifespan := 20
    trafficLoad := 50
    humidityIndex := 6/10
    salinityIndex := 7/10
    temperatureIndex := 7/10
    maintenanceFreq := 12
    monthsSinceLastMaintenance := 24
    currentCondition := 90 }

/-- A one-year simulation over an asset whose traffic load is negative. -/
def negativeTrafficEnv : SimEnv :=
  { asset :=
      { material := "asphalt"
        expectedLifespan := 20
        trafficLoad := -5
        humidityIndex := 1/2
        salinityIndex := 1/2
        temperatureIndex := 1/2
        maintenanceFreq := 12
        replacementCost := 1000
        currentCondition := 80
        degradationScore := 0 }
    initialAgeInYears := 5
    monthsSinceLastMaintenance := 0
    config := { yearsToSimulate := 1, scenarioType := .standard } }

/-- A two-year simulation over an asset whose condition starts at 0.05 while
the first month degrades it by about 0.119, so the condition hits 0 in month
one and the run stops after a single result. -/
def earlyStopEnv : SimEnv :=
  { asset :=
      { material := "other"
        expectedLifespan := 20
        trafficLoad := 0
        humidityIndex := 0
        salinityIndex := 0
        temperatureIndex := 0
        maintenanceFreq := 12
        replacementCost := 1000
        currentCondition := 1/20
        degradationScore := 0 }
    initialAgeInYears := 0
    monthsSinceLastMaintenance := 0
    config := { yearsToSimulate := 2, scenarioType := .standard } }

/-- A custom scenario whose caller-supplied `environmentalSeverity` is `0`. -/
def customSeverityZero : SimulationConfig :=
  { yearsToSimulate := 1
    scenarioType := .custom
    customParams := some { environmentalSeverity := some 0 } }

/-- A custom scenario whose caller-supplied `environmentalSeverity` is `2`. -/
def customSeverityTwo : SimulationConfig :=
  { yearsToSimulate := 1
    scenarioType := .custom
    customParams := some { environmentalSeverity := some 2 } }

/-- A configuration whose caller-supplied `trafficMultiplier` is `0`. -/
def trafficMultiplierZero : SimulationConfig :=
  { yearsToSimulate := 1
    scenarioType := .standard
    customParams := some { trafficMultiplier := some 0 } }

/-- A run state in `"running"` status at 50 % progress. -/
def runningState : WsRunState := { status := "running", progress := 50 }

/-- A run state already in `"cancelled"` status. -/
def cancelledStateConcrete : WsRunState :=
  { status := "cancelled", progress := 50, error := some "Simulation cancelled by user" }

/-! ### Shared lemmas -/

/-- Rounding a zero quantity to two decimals gives zero. -/
theorem round2_zero : round2 0 = 0 := by
  norm_num [round2, jsRound]

/-- The base failure probability is antitone in the condition score. -/
theorem baseFailureProbability_antitone {c1 c2 : ℚ} (h : c1 ≤ c2) :
    baseFailureProbability c2 ≤ baseFailureProbability c1 := by
  unfold baseFailureProbability
  split_ifs <;> linarith

/-- The degradation-rate adjustment is monotone in the probability. -/
theorem rateAdjusted_mono {p q rate : ℚ} (h : p ≤ q) :
    rateAdjusted p rate ≤ rateAdjusted q rate := by
  unfold rateAdjusted
  split_ifs with hr
  · have : (0:ℚ) ≤ 1 + (rate - 1) * (1/2) := by linarith
    exact mul_le_mul_of_nonneg_right h this
  · exact h

/-- The maintenance-status adjustment is monotone in the probability. -/
theorem maintenanceAdjusted_mono {p q m : ℚ} (h : p ≤ q) :
    maintenanceAdjusted p m ≤ maintenanceAdjusted q m := by
  unfold maintenanceAdjusted
  split_ifs with h1 h2
  · exact mul_le_mul_of_nonneg_right h (by norm_num)
  · exact mul_le_mul_of_nonneg_right h (by norm_num)
  · exact h

/-- A nonzero number of remaining months always yields a nonempty result
list: the loop records at least its first month. -/
theorem simLoop_ne_nil (env : SimEnv) (cond cum : ℚ) (month r : ℕ) (h : r ≠ 0) :
    simLoop env cond cum month r ≠ [] := by
  cases r with
  | zero => exact absurd rfl h
  | succ n =>
    unfold simLoop
    split_ifs <;> simp

/-- The stored condition of a month at which the loop stops is exactly 0
(the running condition is clamped at 0 and the stop test is `≤ 0`). -/
theorem simStep_stop_conditionScore_zero {env : SimEnv} {month : ℕ} {cond cum : ℚ}
    (h : (simStep env month cond cum).2.1 ≤ 0) :
    (simStep env month cond cum).1.conditionScore = 0 := by
  have hmax : (0:ℚ) ≤ (simStep env month cond cum).2.1 := by
    simp only [simStep]
    exact le_max_left _ _
  have h0 : (simStep env month cond cum).2.1 = 0 := le_antisymm h hmax
  have hscore : (simStep env month cond cum).1.conditionScore =
      round2 ((simStep env month cond cum).2.1) := by
    simp only [simStep]
  rw [hscore, h0, round2_zero]

/-- When the step's new condition has hit 0 the loop records that month and
stops. -/
theorem simLoop_stop_eq (env : SimEnv) (cond cum : ℚ) (month n : ℕ)
    (h : (simStep env month cond cum).2.1 ≤ 0) :
    simLoop env cond cum month (n + 1) = [(simStep env month cond cum).1] := by
  unfold simLoop
  rw [if_pos h]

/-- The loop never produces more results than the remaining month count. -/
theorem simLoop_length_le (env : SimEnv) :
    ∀ (r : ℕ) (cond cum : ℚ) (month : ℕ),
      (simLoop env cond cum month r).length ≤ r := by
  intro r
  induction r with
  | zero => intro cond cum month; simp [simLoop]
  | succ n ih =>
    intro cond cum month
    unfold simLoop
    split_ifs
    · simp
    · simp only [List.length_cons]
      exact Nat.succ_le_succ (ih _ _ _)

/-- Either the loop runs the full remaining month count, or its last recorded
month has condition score 0. -/
theorem simLoop_stop_last (env : SimEnv) :
    ∀ (r : ℕ) (cond cum : ℚ) (month : ℕ),
      (simLoop env cond cum month r).length = r ∨
      ∃ res, (simLoop env cond cum month r).getLast? = some res ∧
        res.conditionScore = 0 := by
  intro r
  induction r with
  | zero => intro cond cum month; left; simp [simLoop]
  | succ n ih =>
    intro cond cum month
    unfold simLoop
    split_ifs with hstop
    · right
      exact ⟨_, by simp, simStep_stop_conditionScore_zero hstop⟩
    · rcases ih (simStep env month cond cum).2.1 (simStep env month cond cum).2.2
          (month + 1) with hlen | ⟨res, hres, h0⟩
      · left
        simp [List.length_cons, hlen]
      · right
        refine ⟨res, ?_, h0⟩
        cases hrest : simLoop env (simStep env month cond cum).2.1
            (simStep env month cond cum).2.2 (month + 1) n with
        | nil => rw [hrest] at hres; simp at hres
        | cons a l =>
          rw [hrest] at hres
          rw [List.getLast?_cons_cons]
          exact hres

/-! ### Claim theorems -/

/-- Claim C1: the spec says a `monthsSinceLastMaintenance` above 36 multiplies
the base probability by 1.6 with the higher threshold taking precedence, but
the source checks `> 24` first, so every such input takes the 1.3 branch: at
condition 50, rate 1 and 40 months the code returns 0.1 × 1.3 = 0.13, not
0.1 × 1.6 = 0.16. -/
theorem C1_dead_sixteen_branch :
    calculateFailureProbability 50 1 40 = 13/100 ∧
    baseFailureProbability 50 * (16/10) = 16/100 ∧
    calculateFailureProbability 50 1 40 ≠ 16/100 := by
  refine ⟨by norm_num [calculateFailureProbability, baseFailureProbability,
    rateAdjusted, maintenanceAdjusted], by norm_num [baseFailureProbability], ?_⟩
  norm_num [calculateFailureProbability, baseFailureProbability,
    rateAdjusted, maintenanceAdjusted]

/-- Claim C2 counterexample: an asset with a negative traffic load is not
rejected: the simulation loop runs and produces MonthResults. -/
theorem C2_counterexample :
    negativeTrafficEnv.asset.trafficLoad < 0 ∧
    runSimulation negativeTrafficEnv ≠ [] := by
  constructor
  · norm_num [negativeTrafficEnv]
  · unfold runSimulation
    exact simLoop_ne_nil _ _ _ _ _ (by norm_num [negativeTrafficEnv])

/-- Claim C2 amended: no validation is performed — for every environment with
a negative traffic load, a negative humidity/salinity/temperature index, a
non-positive expected lifespan or a non-positive maintenance interval, the
simulation loop still runs and produces at least one MonthResult (the values
are silently used in the arithmetic). -/
theorem C2_no_validation (env : SimEnv)
    (hY : 1 ≤ env.config.yearsToSimulate)
    (_hbad : env.asset.trafficLoad < 0 ∨ env.asset.humidityIndex < 0 ∨
      env.asset.salinityIndex < 0 ∨ env.asset.temperatureIndex < 0 ∨
      env.asset.expectedLifespan ≤ 0 ∨ env.asset.maintenanceFreq ≤ 0) :
    runSimulation env ≠ [] := by
  unfold runSimulation
  exact simLoop_ne_nil _ _ _ _ _ (by omega)

/-- Claim C2 witness: the amended claim at the negative-traffic environment. -/
theorem C2_witness : runSimulation negativeTrafficEnv ≠ [] :=
  C2_no_validation negativeTrafficEnv (by norm_num [negativeTrafficEnv])
    (Or.inl (by norm_num [negativeTrafficEnv]))

/-- Claim C3: a run over Y years produces at most Y × 12 results, and a run
that produces fewer has as final entry a month whose condition score is 0
(the loop breaks right after recording the month at which the condition
reached 0). -/
theorem C3_result_length_and_early_stop (env : SimEnv) :
    (runSimulation env).length ≤ env.config.yearsToSimulate * 12 ∧
    ((runSimulation env).length ≠ env.config.yearsToSimulate * 12 →
      ∃ res, (runSimulation env).getLast? = some res ∧ res.conditionScore = 0) := by
  refine ⟨simLoop_length_le env _ _ _ _, fun hne => ?_⟩
  rcases simLoop_stop_last env (env.config.yearsToSimulate * 12)
      env.asset.currentCondition env.asset.degradationScore 1 with h | h
  · exact absurd h hne
  · exact h

/-- Claim C3 witness: the early-stop environment fails in month one, so its
run is shorter than 24 months and ends in a condition-0 entry. -/
theorem C3_witness :
    (runSimulation earlyStopEnv).length ≤ earlyStopEnv.config.yearsToSimulate * 12 ∧
    ∃ res, (runSimulation earlyStopEnv).getLast? = some res ∧ res.conditionScore = 0 := by
  have hlower : jsToLowerCase "other" = "other" := by decide
  have hrate : jsOr (MATERIAL_WEAR_RATES "other") 2 = 2 := by decide
  have hstop : (simStep earlyStopEnv 1 (1/20) 0).2.1 ≤ 0 := by
    simp only [simStep, earlyStopEnv, calculateMonthlyDegradation,
      effectiveTrafficLoad, scenarioMultiplier]
    rw [hlower, hrate]
    norm_num [jsOr, calculateTrafficAmplification,
      calculateEnvironmentalMultiplier, calculateMaintenanceFactor,
      calculateAgeFactor, min_def, max_def]
  have hrun : runSimulation earlyStopEnv = [(simStep earlyStopEnv 1 (1/20) 0).1] := by
    unfold runSimulation
    have h24 : earlyStopEnv.config.yearsToSimulate * 12 = 23 + 1 := by
      norm_num [earlyStopEnv]
    rw [h24]
    exact simLoop_stop_eq _ _ _ _ _ hstop
  refine ⟨(C3_result_length_and_early_stop earlyStopEnv).1, ?_⟩
  apply (C3_result_length_and_early_stop earlyStopEnv).2
  rw [hrun]
  norm_num [earlyStopEnv]

/-- Claim C4 counterexample: a caller-supplied `environmentalSeverity` of 0
is treated as absent (JS `||` falsiness), so the multiplier is 1 rather than
the supplied 0; likewise a supplied `trafficMultiplier` of 0 leaves the
traffic load unscaled. -/
theorem C4_counterexample :
    customSeverityZero.scenarioType = .custom ∧
    customSeverityZero.customParams.bind CustomParams.environmentalSeverity = some 0 ∧
    scenarioMultiplier customSeverityZero = 1 ∧
    trafficMultiplierZero.customParams.bind CustomParams.trafficMultiplier = some 0 ∧
    effectiveTrafficLoad 80 trafficMultiplierZero = 80 := by
  refine ⟨rfl, rfl, ?_, rfl, ?_⟩
  · norm_num [scenarioMultiplier, customSeverityZero, jsOr]
  · norm_num [effectiveTrafficLoad, trafficMultiplierZero, jsOr]

/-- Claim C4 amended: the scenario multiplier is 1.0 for standard, 0.8 for
optimistic, 1.3 for pessimistic; for custom it is the caller-supplied
`environmentalSeverity` when that is present and nonzero, and defaults to 1.0
when it is absent or zero; the traffic load is pre-multiplied by
`trafficMultiplier` when supplied and nonzero, and left unscaled when it is
absent or zero. -/
theorem C4_scenario_multiplier_resolution (cfg : SimulationConfig) (v t : ℚ) :
    (cfg.scenarioType = .standard → scenarioMultiplier cfg = 1) ∧
    (cfg.scenarioType = .optimistic → scenarioMultiplier cfg = 8/10) ∧
    (cfg.scenarioType = .pessimistic → scenarioMultiplier cfg = 13/10) ∧
    (cfg.scenarioType = .custom →
      cfg.customParams.bind CustomParams.environmentalSeverity = some v → v ≠ 0 →
      scenarioMultiplier cfg = v) ∧
    (cfg.scenarioType = .custom →
      (cfg.customParams.bind CustomParams.environmentalSeverity = none ∨
        cfg.customParams.bind CustomParams.environmentalSeverity = some 0) →
      scenarioMultiplier cfg = 1) ∧
    (cfg.customParams.bind CustomParams.trafficMultiplier = some v → v ≠ 0 →
      effectiveTrafficLoad t cfg = t * v) ∧
    ((cfg.customParams.bind CustomParams.trafficMultiplier = none ∨
        cfg.customParams.bind CustomParams.trafficMultiplier = some 0) →
      effectiveTrafficLoad t cfg = t) := by
  refine ⟨?_, ?_, ?_, ?_, ?_, ?_, ?_⟩
  · intro h; simp [scenarioMultiplier, h]
  · intro h; simp [scenarioMultiplier, h]
  · intro h; simp [scenarioMultiplier, h]
  · intro h hsev hv
    simp [scenarioMultiplier, h, hsev, jsOr, hv]
  · rintro h (hsev | hsev) <;> simp [scenarioMultiplier, h, hsev, jsOr]
  · intro hmul hv
    simp [effectiveTrafficLoad, hmul, jsOr, hv]
  · rintro (hmul | hmul) <;> simp [effectiveTrafficLoad, hmul, jsOr]

/-- Claim C4 witness: severity 2 is used, severity 0 defaults to 1, traffic
multiplier 0 leaves the load unscaled. -/
theorem C4_witness :
    scenarioMultiplier customSeverityTwo = 2 ∧
    scenarioMultiplier customSeverityZero = 1 ∧
    effectiveTrafficLoad 80 trafficMultiplierZero = 80 :=
  ⟨(C4_scenario_multiplier_resolution customSeverityTwo 2 0).2.2.2.1 rfl rfl
      (by norm_num),
   (C4_scenario_multiplier_resolution customSeverityZero 0 0).2.2.2.2.1 rfl
      (Or.inr rfl),
   (C4_scenario_multiplier_resolution trafficMultiplierZero 0 80).2.2.2.2.2.2
      (Or.inr rfl)⟩

/-- Claim C5: on the spec's worked example the factors are exactly 1.65
(traffic), 2.457 (environment, below the 2.5 cap), 1.3 (maintenance) and 1.0
(age); the monthly delta is within 0.01 of 1.098 and the new condition within
0.01 of 88.90. -/
theorem C5_worked_example :
    (calculateMonthlyDegradation workedExampleInput).factors.trafficAmp = 33/20 ∧
    (calculateMonthlyDegradation workedExampleInput).factors.environmentalMult = 2457/1000 ∧
    (calculateMonthlyDegradation workedExampleInput).factors.environmentalMult < 5/2 ∧
    (calculateMonthlyDegradation workedExampleInput).factors.maintenanceFactor = 13/10 ∧
    (calculateMonthlyDegradation workedExampleInput).factors.ageFactor = 1 ∧
    |(calculateMonthlyDegradation workedExampleInput).monthlyDegradation - 1098/1000| ≤ 1/100 ∧
    |(calculateMonthlyDegradation workedExampleInput).newCondition - 8890/100| ≤ 1/100 := by
  have hlower : jsToLowerCase "asphalt" = "asphalt" := by decide
  have hcalc : calculateMonthlyDegradation workedExampleInput =
      { monthlyDegradation := 351351/320000
        newCondition := 28448649/320000
        factors :=
          { baseRate := 5/24
            trafficAmp := 33/20
            environmentalMult := 2457/1000
            maintenanceFactor := 13/10
            ageFactor := 1 } } := by
    simp only [calculateMonthlyDegradation, workedExampleInput]
    rw [hlower]
    norm_num [MATERIAL_WEAR_RATES, jsOr, calculateTrafficAmplification,
      calculateEnvironmentalMultiplier, calculateMaintenanceFactor,
      calculateAgeFactor, min_def, max_def]
  rw [hcalc]
  norm_num [abs_le]

/-- Claim C6: for fixed degradation rate and maintenance months the failure
probability is non-increasing in the condition score, and it never exceeds
0.99. -/
theorem C6_failure_probability_antitone_capped (c1 c2 rate months : ℚ)
    (h : c1 ≤ c2) :
    calculateFailureProbability c2 rate months ≤
      calculateFailureProbability c1 rate months ∧
    calculateFailureProbability c2 rate months ≤ 99/100 := by
  constructor
  · exact min_le_min
      (maintenanceAdjusted_mono (rateAdjusted_mono (baseFailureProbability_antitone h)))
      le_rfl
  · exact min_le_right _ _

/-- Claim C6 witness: at condition scores 10 ≤ 50, rate 2, 40 months. -/
theorem C6_witness :
    calculateFailureProbability 50 2 40 ≤ calculateFailureProbability 10 2 40 ∧
    calculateFailureProbability 50 2 40 ≤ 99/100 :=
  C6_failure_probability_antitone_capped 10 50 2 40 (by norm_num)

/-- Claim C7: `determineRiskLevel` evaluates its bands in priority order, so
it always returns the more severe of the band determined by the condition
score alone and the band determined by the failure probability alone. -/
theorem C7_risk_level_priority (c p : ℚ) :
    determineRiskLevel c p = moreSevere (riskFromCondition c) (riskFromProbability p) := by
  unfold determineRiskLevel riskFromCondition riskFromProbability moreSevere severity
  split_ifs <;> simp_all <;> linarith

/-- Claim C8 counterexample: the cancel handler does not merely set a flag —
on a `"running"` state it itself transitions the stored status to
`"cancelled"` (and records an error message) while emitting the cancellation
event. -/
theorem C8_counterexample :
    runningState.status = "running" ∧
    (cancelSimulation "run-1" (some runningState)).1 =
      some { status := "cancelled", progress := 50, results := [],
             error := some "Simulation cancelled by user" } ∧
    (cancelSimulation "run-1" (some runningState)).2 =
      [.cancelled "run-1" "User cancelled"] := by
  decide

/-- Claim C8 amended: a cancellation request on a `"running"` run itself
transitions the stored status to `"cancelled"` (recording an error message)
and emits the cancellation event; on a non-running run it does nothing; the
runner loop performs no status transition of its own — at the next step
boundary it observes the non-running status, emits nothing, and stops, and
the completion block likewise leaves a non-running state untouched. -/
theorem C8_cancel_transitions_status (id tid : String) (s : WsRunState)
    (month total : ℕ) :
    (s.status = "running" →
      cancelSimulation id (some s) =
        (some { s with status := "cancelled",
                       error := some "Simulation cancelled by user" },
         [.cancelled id "User cancelled"])) ∧
    (s.status ≠ "running" →
      cancelSimulation id (some s) = (some s, []) ∧
      wsLoopIteration id month total (some s) = (some s, [], false) ∧
      wsMarkCompleted id tid (some s) = (some s, [])) := by
  constructor
  · intro h
    simp [cancelSimulation, h]
  · intro h
    refine ⟨?_, ?_, ?_⟩ <;>
      simp [cancelSimulation, wsLoopIteration, wsMarkCompleted, h]

/-- Claim C8 witness: the amended claim at a running and a cancelled state. -/
theorem C8_witness :
    cancelSimulation "run-1" (some runningState) =
      (some { runningState with status := "cancelled",
                                error := some "Simulation cancelled by user" },
       [.cancelled "run-1" "User cancelled"]) ∧
    wsLoopIteration "run-1" 3 24 (some cancelledStateConcrete) =
      (some cancelledStateConcrete, [], false) :=
  ⟨(C8_cancel_transitions_status "run-1" "tenant-1" runningState 3 24).1 rfl,
   ((C8_cancel_transitions_status "run-1" "tenant-1" cancelledStateConcrete 3 24).2
      (by decide)).2.1⟩

/-- Claim C9: subscribing to a run whose state exists immediately delivers
exactly the current snapshot (a single `simulation-state` event, no progress
events); in particular, after the completion block runs on a `"running"`
state, a subscriber receives one snapshot with status `"completed"` and
progress 100. -/
theorem C9_subscribe_delivers_snapshot (id tid : String) (s : WsRunState) :
    subscribeSimulation id (some s) = [.stateSnapshot id s] ∧
    (s.status = "running" →
      ∃ s', (wsMarkCompleted id tid (some s)).1 = some s' ∧
        s'.status = "completed" ∧ s'.progress = 100 ∧
        subscribeSimulation id (some s') = [.stateSnapshot id s'] ∧
        ∀ e ∈ subscribeSimulation id (some s'), e.isProgress = false) := by
  refine ⟨rfl, fun h =>
    ⟨{ s with status := "completed", progress := 100 }, ?_, rfl, rfl, rfl, ?_⟩⟩
  · simp [wsMarkCompleted, h]
  · intro e he
    simp only [subscribeSimulation, List.mem_singleton] at he
    subst he
    rfl

/-- Claim C9 witness: subscribing after completion of a running state yields
one completed/100 snapshot and no progress events. -/
theorem C9_witness :
    subscribeSimulation "run-1" (some runningState) =
      [.stateSnapshot "run-1" runningState] ∧
    ∃ s', (wsMarkCompleted "run-1" "tenant-1" (some runningState)).1 = some s' ∧
      s'.status = "completed" ∧ s'.progress = 100 ∧
      subscribeSimulation "run-1" (some s') = [.stateSnapshot "run-1" s'] ∧
      ∀ e ∈ subscribeSimulation "run-1" (some s'), e.isProgress = false :=
  ⟨(C9_subscribe_delivers_snapshot "run-1" "tenant-1" runningState).1,
   (C9_subscribe_delivers_snapshot "run-1" "tenant-1" runningState).2 rfl⟩

/-- Claim C10: the traffic amplification is monotone, maps `[0,100]` into
`[1,3]`, strictly exceeds 3 for every load above 100 and is unbounded; loads
above 100 are produced by `effectiveTrafficLoad` with a custom traffic
multiplier. -/
theorem C10_traffic_amplification_unbounded :
    (∀ t1 t2 : ℚ, t1 ≤ t2 →
      calculateTrafficAmplification t1 ≤ calculateTrafficAmplification t2) ∧
    (∀ t : ℚ, 0 ≤ t → t ≤ 100 →
      1 ≤ calculateTrafficAmplification t ∧ calculateTrafficAmplification t ≤ 3) ∧
    (∀ t : ℚ, 100 < t → 3 < calculateTrafficAmplification t) ∧
    (∀ M : ℚ, ∃ t : ℚ, 100 < t ∧ M < calculateTrafficAmplification t) ∧
    (∃ load mult : ℚ, 0 ≤ load ∧ load ≤ 100 ∧
      100 < effectiveTrafficLoad load
        { yearsToSimulate := 1, scenarioType := .standard,
          customParams := some { trafficMultiplier := some mult } }) := by
  refine ⟨?_, ?_, ?_, ?_, 80, 2, by norm_num, by norm_num, ?_⟩
  · intro t1 t2 h
    unfold calculateTrafficAmplification
    split_ifs <;> linarith
  · intro t h0 h100
    unfold calculateTrafficAmplification
    split_ifs <;> constructor <;> linarith
  · intro t h
    unfold calculateTrafficAmplification
    split_ifs <;> linarith
  · intro M
    refine ⟨30 * max M 0 + 101, ?_, ?_⟩
    · have := le_max_right M 0
      linarith
    · have h1 := le_max_left M 0
      have h2 := le_max_right M 0
      unfold calculateTrafficAmplification
      split_ifs <;> linarith
  · norm_num [effectiveTrafficLoad, jsOr]

/-- Claim C10 witness: monotone at 10 ≤ 20, in range at 50, above 3 at 130,
above 5 somewhere. -/
theorem C10_witness :
    calculateTrafficAmplification 10 ≤ calculateTrafficAmplification 20 ∧
    (1 ≤ calculateTrafficAmplification 50 ∧ calculateTrafficAmplification 50 ≤ 3) ∧
    3 < calculateTrafficAmplification 130 ∧
    (∃ t : ℚ, 100 < t ∧ (5:ℚ) < calculateTrafficAmplification t) :=
  ⟨C10_traffic_amplification_unbounded.1 10 20 (by norm_num),
   C10_traffic_amplification_unbounded.2.1 50 (by norm_num) (by norm_num),
   C10_traffic_amplification_unbounded.2.2.1 130 (by norm_num),
   C10_traffic_amplification_unbounded.2.2.2.1 5⟩

end UrbanInfra
